import Mathlib

/-!
Verification development for the `amplify-tooling` authentication engine
(`packages/amplify-sdk`, class `Auth`).  The `Auth` facade (constructor,
`applyDefaults`, `createAuthenticator`, `getAccount`, `list`, `login`,
`revoke`, `serverInfo`) is embedded faithfully from the source.  Collaborators
whose source is not part of the provided tree (the token-store constructors
and operations, the `environments` table, `getEndpoints`, `getServerInfo`,
the authenticator `hash`) are modelled from the specification and marked as
such in their doc comments.  Outbound HTTP is modelled by explicit oracles
passed to each operation, so that "no network activity" is expressible as
independence from the oracle.
-/

namespace AmplifySdk

/-- Machine-readable error kinds from the spec's error taxonomy (§7) and the
`E.*` factories used by the source. -/
inductive ErrCode where
  | INVALID_ARGUMENT
  | INVALID_PARAMETER
  | INVALID_VALUE
  | MISSING_REQUIRED_PARAMETER
  | STORE_UNAVAILABLE
  | NETWORK_ERROR
  | AUTH_FAILED
  | TIMEOUT
  deriving DecidableEq, Repr

/-- JavaScript string truthiness for an optional string option: a value is
truthy when it is supplied and non-empty (`opts.x || ...`). -/
def truthy : Option String → Bool
  | some s => s ≠ ""
  | none => false

/-- JavaScript `a || b` on optional string values: keeps `a` when truthy,
otherwise yields `b`. -/
def jsOr (a b : Option String) : Option String :=
  if truthy a then a else b

/-- JavaScript string coercion of a possibly-undefined value, as it occurs in
template literals: `undefined` renders as the string `"undefined"`. -/
def orUndef : Option String → String
  | some s => s
  | none => "undefined"

/-- Modelled from the spec: token set of a credential entry
(`{ access_token, refresh_token?, id_token?, expires_at }`, §3). -/
structure Tokens where
  accessToken : String
  refreshToken : Option String := none
  idToken : Option String := none
  expiresAt : Nat := 0
  deriving DecidableEq, Repr

/-- Modelled from the spec: one persisted credential entry (§3): `hash` is the
store key, `name` the human-readable account identifier, plus the
identity-provider context and the token set. -/
structure Entry where
  hash : String
  name : String
  baseUrl : String
  realm : String
  tokens : Tokens
  deriving DecidableEq, Repr

/-- The three token-store backends distinguished by the store-selection
policy. -/
inductive StoreKind where
  | memory
  | file
  | secure
  deriving DecidableEq, Repr

/-- Modelled from the spec: a token store is one of the three backends
holding a collection of credential entries keyed by `hash` (§4.2); the
variants differ only in durability, not in contract, so one structure with a
kind tag models all three. -/
structure TokenStore where
  kind : StoreKind
  entries : List Entry
  deriving DecidableEq, Repr

/-- Modelled from the spec: `get(criteria) → entry|null` — lookup of the
entry with the given fingerprint `hash` (§4.2, §3 invariant: at most one
entry per hash). -/
def TokenStore.get (st : TokenStore) (hash : String) : Option Entry :=
  st.entries.find? (fun e => e.hash = hash)

/-- Modelled from the spec: `list() → sequence` of the store's entries
(§4.2). -/
def TokenStore.list (st : TokenStore) : List Entry :=
  st.entries

/-- Whether an entry passes the optional base-URL filter used by
`clear`/`delete`. -/
def matchesBaseUrl (baseUrl : Option String) (e : Entry) : Bool :=
  match baseUrl with
  | none => true
  | some b => e.baseUrl = b

/-- Modelled from the spec: `clear(baseUrlFilter?) → sequence of removed`
(§4.2) — removes every entry matching the optional base-URL filter and
returns the removed entries. -/
def TokenStore.clear (st : TokenStore) (baseUrl : Option String) :
    List Entry × TokenStore :=
  let removed := st.entries.filter (matchesBaseUrl baseUrl)
  let kept := st.entries.filter (fun e => ¬ matchesBaseUrl baseUrl e)
  (removed, { st with entries := kept })

/-- Modelled from the spec: `delete(criteria|list) → sequence of removed`
(§4.2) — removes the entries whose account name is among the given names and
which match the optional base-URL filter. -/
def TokenStore.del (st : TokenStore) (names : List String)
    (baseUrl : Option String) : List Entry × TokenStore :=
  let hit := fun e => names.contains e.name && matchesBaseUrl baseUrl e
  let removed := st.entries.filter hit
  let kept := st.entries.filter (fun e => ¬ hit e)
  (removed, { st with entries := kept })

/-- The authenticator kinds (grant strategies), §4.3. -/
inductive AuthKind where
  | ownerPassword
  | clientSecret
  | signedJWT
  | pkce
  deriving DecidableEq, Repr

/-- An authenticator instance: the grant kind plus the configuration the
fingerprint is derived from (§3: "authenticator kind + client id + realm +
base URL"). -/
structure Authenticator where
  kind : AuthKind
  clientId : Option String
  realm : Option String
  baseUrl : Option String
  deriving DecidableEq, Repr

/-- Printable name of an authenticator kind, used by the fingerprint. -/
def AuthKind.str : AuthKind → String
  | .ownerPassword => "OwnerPassword"
  | .clientSecret => "ClientSecret"
  | .signedJWT => "SignedJWT"
  | .pkce => "PKCE"

/-- Modelled from the spec: the stable fingerprint of an authenticator,
"derived from authenticator kind + client id + realm + base URL" (§3),
deterministic with no network (§4.3). -/
def Authenticator.hash (a : Authenticator) : String :=
  a.kind.str ++ ":" ++ orUndef a.clientId ++ ":" ++ orUndef a.realm
    ++ ":" ++ orUndef a.baseUrl

/-- Per-environment data: the default base URL (§2 Environment/Endpoint
Resolver). -/
structure EnvironmentInfo where
  baseUrl : String
  deriving DecidableEq, Repr

/-- Modelled from the spec: the `environments` table maps the named
environments `dev`/`preprod`/`prod` to their base URLs (§2); the exact URL
strings are abstract placeholders, the claims only depend on which names are
known. -/
def environments : String → Option EnvironmentInfo
  | "dev" => some ⟨"https://login.dev.example"⟩
  | "preprod" => some ⟨"https://login.preprod.example"⟩
  | "prod" => some ⟨"https://login.prod.example"⟩
  | _ => none

/-- The option bag passed to the `Auth` public operations.  String-valued
options are `Option String` (`none` = not supplied); `authenticator` and
`tokenStore` carry embedded instances directly, so the `instanceof` guards of
the source are satisfied by construction. -/
structure Opts where
  authenticator : Option Authenticator := none
  baseUrl : Option String := none
  clientId : Option String := none
  clientSecret : Option String := none
  env : Option String := none
  messages : Option String := none
  password : Option String := none
  realm : Option String := none
  secretFile : Option String := none
  serviceAccount : Bool := false
  username : Option String := none
  url : Option String := none
  tokenStore : Option TokenStore := none
  deriving DecidableEq, Repr

/-- The state of an `Auth` instance: the instance-level defaults captured by
the constructor plus the chosen token store (`null` when none was
configured). -/
structure Auth where
  baseUrl : Option String := none
  clientId : Option String := none
  clientSecret : Option String := none
  env : Option String := none
  messages : Option String := none
  password : Option String := none
  realm : Option String := none
  secretFile : Option String := none
  serviceAccount : Bool := false
  username : Option String := none
  tokenStore : Option TokenStore := none
  deriving DecidableEq, Repr

/-- The effective environment name resolved by `applyDefaults`:
`opts.env || this.env || 'prod'`. -/
def effectiveEnv (auth : Auth) (opts : Opts) : String :=
  orUndef (jsOr opts.env (jsOr auth.env (some "prod")))

/-- `Auth#applyDefaults(opts)`: resolves the effective environment
(`opts.env || this.env || 'prod'`), fails with `INVALID_VALUE` when it is not
a known environment, and otherwise fills every option from the per-call
value, else the instance value, else (for `baseUrl`) the environment's base
URL; also attaches the instance's token store. -/
def applyDefaults (auth : Auth) (opts : Opts) : Except ErrCode Opts :=
  let env := effectiveEnv auth opts
  match environments env with
  | none => .error .INVALID_VALUE
  | some info =>
    .ok { opts with
      baseUrl := jsOr opts.baseUrl (jsOr auth.baseUrl (some info.baseUrl))
      clientId := jsOr opts.clientId auth.clientId
      clientSecret := jsOr opts.clientSecret auth.clientSecret
      env := some env
      messages := jsOr opts.messages auth.messages
      password := jsOr opts.password auth.password
      realm := jsOr opts.realm auth.realm
      secretFile := jsOr opts.secretFile auth.secretFile
      serviceAccount := opts.serviceAccount || auth.serviceAccount
      tokenStore := auth.tokenStore
      username := jsOr opts.username auth.username }

/-- Guard of the OwnerPassword branch of `createAuthenticator`:
`typeof opts.username === 'string' && opts.username &&
typeof opts.password === 'string'` — a supplied non-empty username together
with a supplied (possibly empty) password. -/
def userPassGuard (opts : Opts) : Bool :=
  truthy opts.username && opts.password.isSome

/-- Guard of the ClientSecret branch: a supplied non-empty client secret. -/
def clientSecretGuard (opts : Opts) : Bool :=
  truthy opts.clientSecret

/-- Guard of the SignedJWT branch: a supplied non-empty secret-file path. -/
def secretFileGuard (opts : Opts) : Bool :=
  truthy opts.secretFile

/-- `Auth#createAuthenticator(opts)`: returns the explicitly supplied
authenticator as-is, otherwise constructs an OwnerPassword, ClientSecret,
SignedJWT or PKCE authenticator by testing the credential options in that
order. -/
def createAuthenticator (opts : Opts) : Authenticator :=
  match opts.authenticator with
  | some a => a
  | none =>
    if userPassGuard opts then
      ⟨.ownerPassword, opts.clientId, opts.realm, opts.baseUrl⟩
    else if clientSecretGuard opts then
      ⟨.clientSecret, opts.clientId, opts.realm, opts.baseUrl⟩
    else if secretFileGuard opts then
      ⟨.signedJWT, opts.clientId, opts.realm, opts.baseUrl⟩
    else
      ⟨.pkce, opts.clientId, opts.realm, opts.baseUrl⟩

/-- The spec's selection policy, stated as written (§4.1): an ordered list of
guards, each paired with the kind it selects, evaluated first match wins,
with interactive PKCE as the final default; an explicitly supplied instance
short-circuits the whole list. -/
def selectionPolicy (opts : Opts) : Authenticator :=
  match opts.authenticator with
  | some a => a
  | none =>
    let guards : List ((Opts → Bool) × AuthKind) :=
      [(userPassGuard, .ownerPassword),
       (clientSecretGuard, .clientSecret),
       (secretFileGuard, .signedJWT)]
    let kind := (guards.find? (fun g => g.1 opts)).elim AuthKind.pkce Prod.snd
    ⟨kind, opts.clientId, opts.realm, opts.baseUrl⟩

/-- The `tokenStoreType` option as a JavaScript value: it may be left
undefined (defaulting to `'auto'`), set to `null` (persisting nothing), or
set to a string. -/
inductive StoreTypeOpt where
  | undef
  | null
  | str (s : String)
  deriving DecidableEq, Repr

/-- Host/environment condition for store construction: whether the host's
credential vault backing the Secure store is available (§4.2). -/
structure HostEnv where
  secureAvailable : Bool
  deriving DecidableEq, Repr

/-- Constructor options that only matter for store construction. -/
structure StoreOpts where
  tokenStoreDir : Option String := none
  deriving DecidableEq, Repr

/-- Modelled from the spec: the `SecureStore` constructor (not in the
provided tree) "fails (caught by the facade) if no such vault is available on
the platform" (§4.2); on success it yields an empty secure store. -/
def secureStoreNew (host : HostEnv) : Except ErrCode TokenStore :=
  if host.secureAvailable then .ok ⟨.secure, []⟩
  else .error .STORE_UNAVAILABLE

/-- Modelled from the spec: the `FileStore` constructor (not in the provided
tree) "fails with `MISSING_REQUIRED_PARAMETER` if no storage directory is
supplied" (§4.2); on success it yields an empty file store. -/
def fileStoreNew (so : StoreOpts) : Except ErrCode TokenStore :=
  match so.tokenStoreDir with
  | some _ => .ok ⟨.file, []⟩
  | none => .error .MISSING_REQUIRED_PARAMETER

/-- Modelled from the spec: the `MemoryStore` constructor (not in the
provided tree) always succeeds with an empty in-memory store (§4.2). -/
def memoryStoreNew : TokenStore := ⟨.memory, []⟩

/-- The `memory` arm of the constructor's `switch`. -/
def storeSwitchMemory : Except ErrCode (Option TokenStore) :=
  .ok (some memoryStoreNew)

/-- The `file` arm of the constructor's `switch`, including the fall-through
into the `memory` arm: a construction failure is swallowed only in `auto`
mode and only when its code is `ERR_MISSING_REQUIRED_PARAMETER`; any other
failure, and any failure in explicit `file` mode, propagates. -/
def storeSwitchFile (tokenStoreType : String) (so : StoreOpts) :
    Except ErrCode (Option TokenStore) :=
  match fileStoreNew so with
  | .ok st => .ok (some st)
  | .error e =>
    if tokenStoreType = "auto" && e = .MISSING_REQUIRED_PARAMETER then
      storeSwitchMemory
    else
      .error e

/-- The `auto`/`secure` arm of the constructor's `switch`, including the
fall-through into the `file` arm: a Secure construction failure is swallowed
in `auto` mode (falling through to File) and rethrown in explicit `secure`
mode. -/
def storeSwitchSecure (tokenStoreType : String) (host : HostEnv)
    (so : StoreOpts) : Except ErrCode (Option TokenStore) :=
  match secureStoreNew host with
  | .ok st => .ok (some st)
  | .error e =>
    if tokenStoreType = "auto" then storeSwitchFile tokenStoreType so
    else .error e

/-- The token-store selection of the `Auth` constructor: `tokenStoreType`
defaults to `'auto'` when undefined, then a `switch` dispatches to the
Secure, File or Memory constructor with `auto` falling through the cascade;
any unmatched value (including `null`) leaves the token store unset. -/
def buildTokenStore (tst : StoreTypeOpt) (host : HostEnv) (so : StoreOpts) :
    Except ErrCode (Option TokenStore) :=
  let t : Option String :=
    match tst with
    | .undef => some "auto"
    | .null => none
    | .str s => some s
  match t with
  | some "auto" => storeSwitchSecure "auto" host so
  | some "secure" => storeSwitchSecure "secure" host so
  | some "file" => storeSwitchFile "file" so
  | some "memory" => storeSwitchMemory
  | _ => .ok none

/-- The options accepted by the `Auth` constructor: the instance defaults
plus the store-selection options. -/
structure AuthNewOpts where
  baseUrl : Option String := none
  clientId : Option String := none
  clientSecret : Option String := none
  env : Option String := none
  messages : Option String := none
  password : Option String := none
  realm : Option String := none
  secretFile : Option String := none
  serviceAccount : Bool := false
  username : Option String := none
  tokenStore : Option TokenStore := none
  tokenStoreType : StoreTypeOpt := .undef
  tokenStoreDir : Option String := none
  deriving DecidableEq, Repr

/-- The `Auth` constructor: captures the instance defaults and selects the
token store — an explicitly supplied `tokenStore` instance is used directly
(the `instanceof TokenStore` guard holds by construction in this model),
otherwise the store type dispatch of `buildTokenStore` runs. -/
def authNew (opts : AuthNewOpts) (host : HostEnv) : Except ErrCode Auth :=
  match (match opts.tokenStore with
    | some st => Except.ok (some st)
    | none => buildTokenStore opts.tokenStoreType host ⟨opts.tokenStoreDir⟩) with
  | .error e => .error e
  | .ok store =>
  .ok { baseUrl := opts.baseUrl
        clientId := opts.clientId
        clientSecret := opts.clientSecret
        env := opts.env
        messages := opts.messages
        password := opts.password
        realm := opts.realm
        secretFile := opts.secretFile
        serviceAccount := opts.serviceAccount
        username := opts.username
        tokenStore := store }

/-- Modelled from the spec: `getEndpoints` (not in the provided tree) is
"pure, deterministic URL templating — no network call" deriving the endpoint
set from base URL and realm (§2, §4.4); the URL shapes follow the canonical
discovery document of the test fixture. -/
def getEndpointsLogout (baseUrl realm : Option String) : String :=
  orUndef baseUrl ++ "/auth/realms/" ++ orUndef realm
    ++ "/protocol/openid-connect/logout"

/-- Modelled from the spec: the well-known discovery URL derived from base
URL and realm by `getEndpoints` (§4.4). -/
def getEndpointsWellKnown (baseUrl realm : Option String) : String :=
  orUndef baseUrl ++ "/auth/realms/" ++ orUndef realm
    ++ "/.well-known/openid-configuration"

/-- `Auth#list()`: the store's listing, or an empty sequence when no store is
configured. -/
def Auth.listAccounts (auth : Auth) : List Entry :=
  match auth.tokenStore with
  | some st => st.list
  | none => []

/-- `Auth#getAccount(opts)`: returns `null` when no store is configured;
otherwise applies the defaults, selects the authenticator the matching login
would use, and looks its fingerprint up in the store (the store's
`get` returns `null` when nothing is found — never an error). -/
def Auth.getAccount (auth : Auth) (opts : Opts) :
    Except ErrCode (Option Entry) :=
  match auth.tokenStore with
  | none => .ok none
  | some st =>
    match applyDefaults auth opts with
    | .error e => .error e
    | .ok o => .ok (st.get (createAuthenticator o).hash)

/-- Result of a successful login: the access token and resolved account
name (the network exchange itself is performed by the authenticator and is
modelled by an oracle). -/
structure LoginResult where
  accessToken : String
  accountName : String
  deriving DecidableEq, Repr

/-- `Auth#login(opts)`: applies the defaults, selects/constructs the
authenticator and invokes its exchange protocol; the outbound exchange is the
`doLogin` oracle, consulted only after defaults application succeeds. -/
def Auth.login (auth : Auth) (opts : Opts)
    (doLogin : Authenticator → Except ErrCode LoginResult) :
    Except ErrCode LoginResult :=
  match applyDefaults auth opts with
  | .error e => .error e
  | .ok o => doLogin (createAuthenticator o)

/-- The `accounts` argument of `revoke` as a JavaScript value: undefined, a
single string, an array of strings, or any other value (which is neither a
string nor an array). -/
inductive AccountsArg where
  | undef
  | str (s : String)
  | arr (xs : List String)
  | other
  deriving DecidableEq, Repr

/-- JavaScript `accounts.length` for the values that reach the length check
(a string or an array). -/
def AccountsArg.length : AccountsArg → Nat
  | .str s => s.length
  | .arr xs => xs.length
  | _ => 0

/-- The account names passed through to the store's `delete`: the array
itself, or the single name when a string was given. -/
def AccountsArg.names : AccountsArg → List String
  | .str s => [s]
  | .arr xs => xs
  | _ => []

/-- Outcome of one outbound `fetch` of the logout endpoint: the response
resolved with `res.ok` true, resolved with `res.ok` false (non-2xx status),
or the fetch itself rejected with a transport failure. -/
inductive FetchOutcome where
  | ok
  | httpError
  | networkFailure
  deriving DecidableEq, Repr

/-- One structured log event emitted by the revoke logout loop. -/
inductive LogEvent where
  | logoutSuccess (name : String)
  | logoutFailure (name : String)
  deriving DecidableEq, Repr

/-- The observable result of a `revoke` call: the entries removed from the
store, the store's resulting state, the logout URLs fetched, and the log
events emitted. -/
structure RevokeOut where
  revoked : List Entry
  store : Option TokenStore
  fetched : List String
  logs : List LogEvent
  deriving DecidableEq, Repr

/-- The logout URL `revoke` builds for one removed entry:
`getEndpoints(entry).logout + '?id_token_hint=' + entry.tokens.id_token`. -/
def logoutUrl (e : Entry) : String :=
  getEndpointsLogout (some e.baseUrl) (some e.realm)
    ++ "?id_token_hint=" ++ orUndef e.tokens.idToken

/-- The sequential logout loop of `revoke`: for each removed entry the
logout endpoint is fetched; a resolved response is logged (success or
failure by `res.ok`) and the loop continues, while a rejected fetch
propagates out of the loop (there is no surrounding try/catch in the
source). -/
def logoutLoop (fetchFn : String → FetchOutcome) :
    List Entry → Except ErrCode (List String × List LogEvent)
  | [] => .ok ([], [])
  | e :: rest =>
    let url := logoutUrl e
    match fetchFn url with
    | .networkFailure => .error .NETWORK_ERROR
    | .ok =>
      match logoutLoop fetchFn rest with
      | .error er => .error er
      | .ok (us, ls) => .ok (url :: us, .logoutSuccess e.name :: ls)
    | .httpError =>
      match logoutLoop fetchFn rest with
      | .error er => .error er
      | .ok (us, ls) => .ok (url :: us, .logoutFailure e.name :: ls)

/-- `Auth#revoke({accounts, all, baseUrl})`: with no store configured it
returns an empty list at once; otherwise it rejects with `INVALID_ARGUMENT`
when `all` is unset and `accounts` is neither a string nor an array, returns
an empty list for an empty `accounts`, clears or deletes matching entries
from the store, then best-effort fetches each removed entry's logout URL. -/
def Auth.revoke (auth : Auth) (accounts : AccountsArg) (all : Bool)
    (baseUrl : Option String) (fetchFn : String → FetchOutcome) :
    Except ErrCode RevokeOut :=
  match auth.tokenStore with
  | none => .ok ⟨[], none, [], []⟩
  | some st =>
    if !all && !(accounts matches .str _) && !(accounts matches .arr _) then
      .error .INVALID_ARGUMENT
    else if !all && accounts.length = 0 then
      .ok ⟨[], some st, [], []⟩
    else
      let p := if all then st.clear baseUrl else st.del accounts.names baseUrl
      match logoutLoop fetchFn p.1 with
      | .error e => .error e
      | .ok (urls, logs) => .ok ⟨p.1, some p.2, urls, logs⟩

/-- An OpenID discovery document, kept abstract: the claims only track which
URL it was fetched from and that it is passed through unmodified. -/
structure DiscoveryDoc where
  raw : String
  deriving DecidableEq, Repr

/-- Modelled from the spec: `getServerInfo(url)` (in `util`, not in the
provided tree) "performs an HTTP GET, fails with a network/parse error
taxonomy on non-2xx response or malformed JSON" (§4.4); the GET-and-parse is
the oracle itself. -/
def getServerInfo (fetchDoc : String → Except ErrCode DiscoveryDoc)
    (url : String) : Except ErrCode DiscoveryDoc :=
  fetchDoc url

/-- `Auth#serverInfo(opts)`: applies the defaults, uses the explicitly
supplied `url` option when truthy and otherwise the well-known URL derived
from the resolved base URL and realm, then fetches and parses the document
there. -/
def Auth.serverInfo (auth : Auth) (opts : Opts)
    (fetchDoc : String → Except ErrCode DiscoveryDoc) :
    Except ErrCode DiscoveryDoc :=
  match applyDefaults auth opts with
  | .error e => .error e
  | .ok o =>
    let url :=
      if truthy o.url then orUndef o.url
      else getEndpointsWellKnown o.baseUrl o.realm
    getServerInfo fetchDoc url

/-! ### Concrete fixtures used by witnesses and counterexamples -/

/-- A sample token set with an id token (used by the logout URL). -/
def sampleTokens : Tokens := { accessToken := "at", idToken := some "idtok" }

/-- A sample credential entry whose fingerprint matches the PKCE
authenticator a default `prod` login would select. -/
def sampleEntry : Entry :=
  { hash := "PKCE:undefined:undefined:https://login.prod.example"
    name := "foo@bar.com"
    baseUrl := "https://ex.example"
    realm := "r"
    tokens := sampleTokens }

/-- A memory store holding exactly `sampleEntry`. -/
def sampleStore : TokenStore := ⟨.memory, [sampleEntry]⟩

/-- An `Auth` instance with all defaults and `sampleStore` configured. -/
def sampleAuth : Auth := { tokenStore := some sampleStore }

/-- An `Auth` instance whose instance-level `env` is not a known
environment, with `sampleStore` configured. -/
def badEnvAuth : Auth := { env := some "bogus", tokenStore := some sampleStore }

/-- An `Auth` instance with no token store configured. -/
def noStoreAuth : Auth := {}

/-- The result of `applyDefaults sampleAuth {}`: the `prod` environment and
its base URL filled in, the store attached. -/
def defaultedOpts : Opts :=
  { baseUrl := some "https://login.prod.example"
    env := some "prod"
    tokenStore := some sampleStore }

/-! ### Theorems -/

/-- C4.  For every options object, authenticator selection follows the fixed
first-match-wins order: an explicitly supplied authenticator instance is
returned as-is; otherwise username+password selects OwnerPassword, else a
client secret selects ClientSecret, else a secret-file path selects
SignedJWT, else PKCE — i.e. `createAuthenticator` coincides with the ordered
guard-list policy `selectionPolicy`. -/
theorem createAuthenticator_first_match_policy (opts : Opts) :
    createAuthenticator opts = selectionPolicy opts := by
  unfold createAuthenticator selectionPolicy
  cases opts.authenticator with
  | some a => rfl
  | none =>
    by_cases h1 : userPassGuard opts <;>
      by_cases h2 : clientSecretGuard opts <;>
        by_cases h3 : secretFileGuard opts <;>
          simp [h1, h2, h3, List.find?]

/-- C7.  `list()` returns the store's listing, and the empty sequence when
no token store is configured. -/
theorem listAccounts_spec (auth : Auth) :
    auth.listAccounts = auth.tokenStore.elim [] TokenStore.list := by
  cases h : auth.tokenStore <;> simp [Auth.listAccounts, h]

/-- C9.  On an `Auth` instance with no token store configured, `revoke`
returns an empty sequence immediately for every argument combination —
including invalid `accounts` values — with no store mutation, no fetch, and
a result independent of the fetch oracle. -/
theorem revoke_no_store_empty (auth : Auth) (accounts : AccountsArg)
    (all : Bool) (baseUrl : Option String) (fetchFn : String → FetchOutcome)
    (h : auth.tokenStore = none) :
    Auth.revoke auth accounts all baseUrl fetchFn = .ok ⟨[], none, [], []⟩ := by
  simp [Auth.revoke, h]

/-- Witness for C9: a store-less instance given an invalid `accounts` value
and an always-failing fetch oracle still yields the empty result. -/
theorem revoke_no_store_empty_witness :
    Auth.revoke noStoreAuth .other false none (fun _ => .networkFailure) =
      .ok ⟨[], none, [], []⟩ :=
  revoke_no_store_empty noStoreAuth .other false none
    (fun _ => .networkFailure) rfl

/-- Counterexample to C2 as stated: on an `Auth` with no token store, a
`revoke` call whose `accounts` is neither a string nor an array and whose
`all` flag is unset returns the empty sequence instead of failing with
`INVALID_ARGUMENT`. -/
theorem revoke_without_store_skips_validation_cex :
    Auth.revoke noStoreAuth .other false none (fun _ => .ok) =
        .ok ⟨[], none, [], []⟩ ∧
      Auth.revoke noStoreAuth .other false none (fun _ => .ok) ≠
        .error .INVALID_ARGUMENT := by
  refine ⟨rfl, fun h => ?_⟩
  rw [show Auth.revoke noStoreAuth .other false none (fun _ => .ok) =
    .ok ⟨[], none, [], []⟩ from rfl] at h
  exact Except.noConfusion h

/-- C2 (amended).  On an `Auth` instance with a token store configured, a
`revoke` call whose `all` flag is unset and whose `accounts` argument is
neither a string nor an array fails with `INVALID_ARGUMENT`. -/
theorem revoke_invalid_accounts_with_store (auth : Auth) (st : TokenStore)
    (accounts : AccountsArg) (baseUrl : Option String)
    (fetchFn : String → FetchOutcome)
    (hstore : auth.tokenStore = some st)
    (hacc : accounts = .undef ∨ accounts = .other) :
    Auth.revoke auth accounts false baseUrl fetchFn =
      .error .INVALID_ARGUMENT := by
  rcases hacc with h | h <;> subst h <;> simp [Auth.revoke, hstore]

/-- Witness for C2 (amended): with a store configured, an undefined
`accounts` and `all` unset reject with `INVALID_ARGUMENT`. -/
theorem revoke_invalid_accounts_with_store_witness :
    Auth.revoke sampleAuth .undef false none (fun _ => .ok) =
      .error .INVALID_ARGUMENT :=
  revoke_invalid_accounts_with_store sampleAuth sampleStore .undef none
    (fun _ => .ok) rfl (Or.inl rfl)

/-- When the fetch oracle never rejects, the logout loop visits every
removed entry, fetching its logout URL and logging success or failure by the
response's `ok` flag. -/
theorem logoutLoop_no_transport_failure (fetchFn : String → FetchOutcome)
    (h : ∀ url, fetchFn url ≠ .networkFailure) (l : List Entry) :
    logoutLoop fetchFn l =
      .ok (l.map logoutUrl,
        l.map (fun e =>
          if fetchFn (logoutUrl e) = .ok then LogEvent.logoutSuccess e.name
          else LogEvent.logoutFailure e.name)) := by
  induction l with
  | nil => rfl
  | cons e rest ih =>
    have he := h (logoutUrl e)
    unfold logoutLoop
    cases hf : fetchFn (logoutUrl e) with
    | networkFailure => exact absurd hf he
    | ok => simp [hf, ih]
    | httpError => simp [hf, ih]

/-- Counterexample to C1 as stated: `sampleAuth`'s store matches one entry
(`sampleEntry`), yet when the logout fetch suffers a transport failure,
`revoke` rejects with the network error instead of returning the sequence of
locally removed entries. -/
theorem revoke_logout_transport_failure_propagates_cex :
    (sampleStore.clear none).1 = [sampleEntry] ∧
      Auth.revoke sampleAuth .undef true none (fun _ => .networkFailure) =
        .error .NETWORK_ERROR := ⟨rfl, rfl⟩

/-- C1 (amended).  For every revoke that reaches the removal step — in
all-mode, or with a non-empty string or array of account names — when every
logout fetch resolves (with a 2xx or non-2xx status), `revoke` returns the
locally removed entries: each non-2xx response is only logged (a
`logoutFailure` event) and is not propagated; only a transport-level
rejection of the fetch propagates to the caller. -/
theorem revoke_logout_http_failure_not_propagated (auth : Auth)
    (st : TokenStore) (accounts : AccountsArg) (all : Bool)
    (baseUrl : Option String) (fetchFn : String → FetchOutcome)
    (hstore : auth.tokenStore = some st)
    (hfetch : ∀ url, fetchFn url ≠ .networkFailure)
    (hsel : all = true ∨
      (all = false ∧ accounts.length ≠ 0 ∧
        ((∃ s, accounts = .str s) ∨ ∃ xs, accounts = .arr xs))) :
    Auth.revoke auth accounts all baseUrl fetchFn =
      .ok ⟨(if all then st.clear baseUrl
             else st.del accounts.names baseUrl).1,
        some (if all then st.clear baseUrl
              else st.del accounts.names baseUrl).2,
        ((if all then st.clear baseUrl
          else st.del accounts.names baseUrl).1).map logoutUrl,
        ((if all then st.clear baseUrl
          else st.del accounts.names baseUrl).1).map (fun e =>
          if fetchFn (logoutUrl e) = .ok then LogEvent.logoutSuccess e.name
          else LogEvent.logoutFailure e.name)⟩ := by
  rcases hsel with hall | ⟨hall, hlen, hacc⟩
  · subst hall
    simp [Auth.revoke, hstore, logoutLoop_no_transport_failure fetchFn hfetch]
  · subst hall
    rcases hacc with ⟨s, hs⟩ | ⟨xs, hxs⟩ <;> subst accounts <;>
      simp_all [Auth.revoke, hstore, AccountsArg.length,
        logoutLoop_no_transport_failure fetchFn hfetch]

/-- Witness for C1 (amended): with a fetch oracle that always resolves with
a non-2xx response, revoking all accounts of `sampleAuth` — and likewise
revoking by the account-name list — still returns the removed entry, records
the fetched logout URL, and logs the failure. -/
theorem revoke_logout_http_failure_not_propagated_witness :
    (Auth.revoke sampleAuth .undef true none (fun _ => .httpError) =
      .ok ⟨[sampleEntry], some ⟨.memory, []⟩, [logoutUrl sampleEntry],
        [.logoutFailure sampleEntry.name]⟩) ∧
    (Auth.revoke sampleAuth (.arr ["foo@bar.com"]) false none
        (fun _ => .httpError) =
      .ok ⟨[sampleEntry], some ⟨.memory, []⟩, [logoutUrl sampleEntry],
        [.logoutFailure sampleEntry.name]⟩) := by
  have h1 := revoke_logout_http_failure_not_propagated sampleAuth sampleStore
    .undef true none (fun _ => .httpError) rfl
    (fun _ hcontra => nomatch hcontra) (Or.inl rfl)
  have h2 := revoke_logout_http_failure_not_propagated sampleAuth sampleStore
    (.arr ["foo@bar.com"]) false none (fun _ => .httpError) rfl
    (fun _ hcontra => nomatch hcontra)
    (Or.inr ⟨rfl, by decide, Or.inr ⟨["foo@bar.com"], rfl⟩⟩)
  exact ⟨by rw [h1]; rfl, by rw [h2]; rfl⟩

/-- C3.  Store selection in the `Auth` constructor: with type `auto` it
attempts Secure, then File, then falls back to Memory, always yielding a
store (Secure when the vault is available, else File when a store directory
is supplied, else Memory); explicit `secure` or `file` whose constructor
fails propagates the error instead of falling back. -/
theorem storeSelection_auto_fallback (host : HostEnv) (dir : Option String) :
    (∃ a : Auth,
      authNew { tokenStoreType := .str "auto", tokenStoreDir := dir } host =
        .ok a ∧ a.tokenStore.isSome) ∧
    (host.secureAvailable = true →
      ∃ a : Auth,
        authNew { tokenStoreType := .str "auto", tokenStoreDir := dir } host =
          .ok a ∧ a.tokenStore = some ⟨.secure, []⟩) ∧
    (host.secureAvailable = false → dir.isSome →
      ∃ a : Auth,
        authNew { tokenStoreType := .str "auto", tokenStoreDir := dir } host =
          .ok a ∧ a.tokenStore = some ⟨.file, []⟩) ∧
    (host.secureAvailable = false → dir = none →
      ∃ a : Auth,
        authNew { tokenStoreType := .str "auto", tokenStoreDir := dir } host =
          .ok a ∧ a.tokenStore = some memoryStoreNew) ∧
    (host.secureAvailable = false →
      authNew { tokenStoreType := .str "secure", tokenStoreDir := dir } host =
        .error .STORE_UNAVAILABLE) ∧
    (dir = none →
      authNew { tokenStoreType := .str "file", tokenStoreDir := dir } host =
        .error .MISSING_REQUIRED_PARAMETER) := by
  obtain ⟨sa⟩ := host
  cases sa <;> cases dir <;>
    simp [authNew, buildTokenStore, storeSwitchSecure, storeSwitchFile,
      storeSwitchMemory, secureStoreNew, fileStoreNew, memoryStoreNew]

/-- Witness for C3: with no vault and no store directory, `auto` yields a
Memory store while explicit `secure` and `file` propagate their constructor
errors. -/
theorem storeSelection_auto_fallback_witness :
    (∃ a : Auth,
      authNew { tokenStoreType := .str "auto", tokenStoreDir := none }
          ⟨false⟩ = .ok a ∧ a.tokenStore = some memoryStoreNew) ∧
    authNew { tokenStoreType := .str "secure", tokenStoreDir := none }
        ⟨false⟩ = .error .STORE_UNAVAILABLE ∧
    authNew { tokenStoreType := .str "file", tokenStoreDir := none }
        ⟨false⟩ = .error .MISSING_REQUIRED_PARAMETER :=
  ⟨(storeSelection_auto_fallback ⟨false⟩ none).2.2.2.1 rfl rfl,
   (storeSelection_auto_fallback ⟨false⟩ none).2.2.2.2.1 rfl,
   (storeSelection_auto_fallback ⟨false⟩ none).2.2.2.2.2 rfl⟩

/-- Counterexample to C5 as stated: `revoke` is listed among the
defaults-applying operations, yet on an instance whose effective environment
is unknown (`badEnvAuth.env` is an unknown name and no per-call env exists),
`revoke` succeeds — clearing the store and returning the removed entry —
instead of failing with `INVALID_VALUE`. -/
theorem revoke_ignores_env_validation_cex :
    environments (effectiveEnv badEnvAuth {}) = none ∧
      Auth.revoke badEnvAuth .undef true none (fun _ => .ok) =
        .ok ⟨[sampleEntry], some ⟨.memory, []⟩, [logoutUrl sampleEntry],
          [.logoutSuccess sampleEntry.name]⟩ := ⟨rfl, rfl⟩

/-- C5 (amended).  For the operations that apply defaults — `login`,
`serverInfo`, and `getAccount` when a token store is configured — an unknown
effective environment (per-call, else instance, else `prod`) fails the call
with `INVALID_VALUE` independently of the network oracle (so before any
network activity), while a known environment resolves every option per-call
first, then instance-level, then (for `baseUrl`) from the environment.
`revoke` applies no defaults and performs no environment validation. -/
theorem defaults_precedence_and_env_validation (auth : Auth) (opts : Opts) :
    (environments (effectiveEnv auth opts) = none →
      (∀ doLogin, Auth.login auth opts doLogin = .error .INVALID_VALUE) ∧
      (∀ fetchDoc, Auth.serverInfo auth opts fetchDoc =
        .error .INVALID_VALUE) ∧
      (∀ st, auth.tokenStore = some st →
        Auth.getAccount auth opts = .error .INVALID_VALUE)) ∧
    (∀ info, environments (effectiveEnv auth opts) = some info →
      ∃ o, applyDefaults auth opts = .ok o ∧
        o.env = some (effectiveEnv auth opts) ∧
        (truthy opts.baseUrl = true → o.baseUrl = opts.baseUrl) ∧
        (truthy opts.baseUrl = false → truthy auth.baseUrl = true →
          o.baseUrl = auth.baseUrl) ∧
        (truthy opts.baseUrl = false → truthy auth.baseUrl = false →
          o.baseUrl = some info.baseUrl)) := by
  constructor
  · intro henv
    have happ : applyDefaults auth opts = .error .INVALID_VALUE := by
      simp [applyDefaults, henv]
    refine ⟨fun doLogin => ?_, fun fetchDoc => ?_, fun st hst => ?_⟩
    · simp [Auth.login, happ]
    · simp [Auth.serverInfo, happ]
    · simp [Auth.getAccount, hst, happ]
  · intro info henv
    refine ⟨{ opts with
        baseUrl := jsOr opts.baseUrl (jsOr auth.baseUrl (some info.baseUrl))
        clientId := jsOr opts.clientId auth.clientId
        clientSecret := jsOr opts.clientSecret auth.clientSecret
        env := some (effectiveEnv auth opts)
        messages := jsOr opts.messages auth.messages
        password := jsOr opts.password auth.password
        realm := jsOr opts.realm auth.realm
        secretFile := jsOr opts.secretFile auth.secretFile
        serviceAccount := opts.serviceAccount || auth.serviceAccount
        tokenStore := auth.tokenStore
        username := jsOr opts.username auth.username },
      by simp [applyDefaults, henv], rfl, ?_, ?_, ?_⟩
    · intro h1
      simp [jsOr, h1]
    · intro h1 h2
      simp [jsOr, h1, h2]
    · intro h1 h2
      simp [jsOr, h1, h2]

/-- Witness for C5 (amended): on `badEnvAuth` (unknown instance env, store
configured) `serverInfo` and `getAccount` fail with `INVALID_VALUE`, and on
`sampleAuth` with a known env the per-call base URL wins over the
environment default. -/
theorem defaults_precedence_and_env_validation_witness :
    Auth.serverInfo badEnvAuth {} (fun u => .ok ⟨u⟩) =
        .error .INVALID_VALUE ∧
      Auth.getAccount badEnvAuth {} = .error .INVALID_VALUE ∧
      ∃ o, applyDefaults sampleAuth { baseUrl := some "https://call.example" }
          = .ok o ∧ o.baseUrl = some "https://call.example" := by
  have h1 := (defaults_precedence_and_env_validation badEnvAuth {}).1 rfl
  have h2 := (defaults_precedence_and_env_validation sampleAuth
    { baseUrl := some "https://call.example" }).2
    ⟨"https://login.prod.example"⟩ rfl
  obtain ⟨o, ho, -, hcall, -, -⟩ := h2
  exact ⟨h1.2.1 _, h1.2.2 sampleStore rfl, o, ho, hcall rfl⟩

/-- C6.  `getAccount` returns `null` when no token store is configured
(never throwing); with a store it looks up the fingerprint of the very
authenticator a `login` with the same options would drive (`login` consults
its exchange oracle at exactly that authenticator), and a missed lookup
yields `null`, never an error. -/
theorem getAccount_hash_lookup (auth : Auth) (opts : Opts) :
    (auth.tokenStore = none → Auth.getAccount auth opts = .ok none) ∧
    (∀ st o, auth.tokenStore = some st → applyDefaults auth opts = .ok o →
      Auth.getAccount auth opts = .ok (st.get (createAuthenticator o).hash) ∧
      (∀ doLogin, Auth.login auth opts doLogin =
        doLogin (createAuthenticator o)) ∧
      (st.get (createAuthenticator o).hash = none →
        Auth.getAccount auth opts = .ok none)) := by
  constructor
  · intro h
    simp [Auth.getAccount, h]
  · intro st o hst ho
    have hget : Auth.getAccount auth opts =
        .ok (st.get (createAuthenticator o).hash) := by
      simp [Auth.getAccount, hst, ho]
    refine ⟨hget, fun doLogin => ?_, fun hmiss => ?_⟩
    · simp [Auth.login, ho]
    · rw [hget, hmiss]

/-- Witness for C6: on `sampleAuth` the default options select the PKCE
authenticator whose fingerprint matches `sampleEntry`, so the lookup hits;
on a store-less instance the same call returns `null`. -/
theorem getAccount_hash_lookup_witness :
    Auth.getAccount sampleAuth {} = .ok (some sampleEntry) ∧
      Auth.getAccount noStoreAuth {} = .ok none := by
  have h := (getAccount_hash_lookup sampleAuth {}).2 sampleStore
    defaultedOpts rfl rfl
  have h0 := (getAccount_hash_lookup noStoreAuth {}).1 rfl
  exact ⟨by rw [h.1]; rfl, h0⟩

/-- `applyDefaults` never touches the `url` option. -/
theorem applyDefaults_url (auth : Auth) (opts o : Opts)
    (h : applyDefaults auth opts = .ok o) : o.url = opts.url := by
  unfold applyDefaults at h
  cases henv : environments (effectiveEnv auth opts) <;> simp [henv] at h
  rw [← h]

/-- C8.  The discovery URL used by `serverInfo` is the explicitly supplied
(non-empty) `url` option when present, and otherwise the well-known URL
derived from the resolved base URL and realm; the document at that URL is
then fetched and parsed via `getServerInfo`. -/
theorem serverInfo_discovery_url (auth : Auth) (opts : Opts)
    (fetchDoc : String → Except ErrCode DiscoveryDoc) (o : Opts)
    (h : applyDefaults auth opts = .ok o) :
    (∀ u, opts.url = some u → u ≠ "" →
      Auth.serverInfo auth opts fetchDoc = getServerInfo fetchDoc u) ∧
    (truthy opts.url = false →
      Auth.serverInfo auth opts fetchDoc =
        getServerInfo fetchDoc (getEndpointsWellKnown o.baseUrl o.realm)) := by
  have hurl := applyDefaults_url auth opts o h
  constructor
  · intro u hu hne
    simp [Auth.serverInfo, h, truthy, orUndef, hurl, hu, hne]
  · intro hfalse
    simp [Auth.serverInfo, h, hurl ▸ hfalse]

/-- Witness for C8: an explicit discovery URL is fetched as-is, and without
one the well-known URL derived from the `prod` base URL and the given realm
is fetched. -/
theorem serverInfo_discovery_url_witness :
    Auth.serverInfo sampleAuth { url := some "https://exp.example/wk" }
        (fun u => .ok ⟨u⟩) = .ok ⟨"https://exp.example/wk"⟩ ∧
      Auth.serverInfo sampleAuth { realm := some "myrealm" }
        (fun u => .ok ⟨u⟩) =
        .ok ⟨"https://login.prod.example/auth/realms/myrealm/.well-known/openid-configuration"⟩ := by
  have h1 := (serverInfo_discovery_url sampleAuth
    { url := some "https://exp.example/wk" } (fun u => .ok ⟨u⟩)
    { defaultedOpts with url := some "https://exp.example/wk" } rfl).1
    "https://exp.example/wk" rfl (by decide)
  have h2 := (serverInfo_discovery_url sampleAuth
    { realm := some "myrealm" } (fun u => .ok ⟨u⟩)
    { defaultedOpts with realm := some "myrealm" } rfl).2 rfl
  exact ⟨h1, by rw [h2]; rfl⟩

/-- For a store type string other than the four recognized values, the
constructor's `switch` matches no case and leaves the token store unset. -/
theorem buildTokenStore_unknown (s : String) (host : HostEnv)
    (so : StoreOpts) (h1 : s ≠ "auto") (h2 : s ≠ "secure") (h3 : s ≠ "file")
    (h4 : s ≠ "memory") :
    buildTokenStore (.str s) host so = .ok none := by
  unfold buildTokenStore
  split <;> simp_all

/-- C10.  For every `tokenStoreType` other than the four recognized values
(including `null`), and with no explicit `tokenStore` instance supplied, the
`Auth` constructor completes successfully with no token store configured,
and the resulting instance's `list`, `getAccount` and `revoke` all take
their no-store degraded paths. -/
theorem unknown_store_type_yields_no_store (opts : AuthNewOpts)
    (host : HostEnv) (hinst : opts.tokenStore = none)
    (htype : opts.tokenStoreType = .null ∨
      ∃ s, opts.tokenStoreType = .str s ∧
        s ≠ "auto" ∧ s ≠ "secure" ∧ s ≠ "file" ∧ s ≠ "memory") :
    ∃ a : Auth, authNew opts host = .ok a ∧ a.tokenStore = none ∧
      a.listAccounts = [] ∧
      (∀ o2, Auth.getAccount a o2 = .ok none) ∧
      (∀ accounts all baseUrl fetchFn,
        Auth.revoke a accounts all baseUrl fetchFn =
          .ok ⟨[], none, [], []⟩) := by
  have hstore : buildTokenStore opts.tokenStoreType host ⟨opts.tokenStoreDir⟩
      = .ok none := by
    rcases htype with h | ⟨s, hs, h1, h2, h3, h4⟩
    · rw [h]; rfl
    · rw [hs]
      exact buildTokenStore_unknown s host ⟨opts.tokenStoreDir⟩ h1 h2 h3 h4
  refine ⟨{ baseUrl := opts.baseUrl
            clientId := opts.clientId
            clientSecret := opts.clientSecret
            env := opts.env
            messages := opts.messages
            password := opts.password
            realm := opts.realm
            secretFile := opts.secretFile
            serviceAccount := opts.serviceAccount
            username := opts.username
            tokenStore := none },
    ?_, rfl, rfl, fun o2 => rfl, fun accounts all baseUrl fetchFn => rfl⟩
  simp [authNew, hinst, hstore]

/-- Witness for C10: the constructor given the unrecognized type string
"bogus", and given `null`, yields a store-less instance whose operations
degrade as claimed. -/
theorem unknown_store_type_yields_no_store_witness :
    (∃ a : Auth, authNew { tokenStoreType := .str "bogus" } ⟨true⟩ = .ok a ∧
      a.tokenStore = none ∧ a.listAccounts = [] ∧
      (∀ o2, Auth.getAccount a o2 = .ok none) ∧
      (∀ accounts all baseUrl fetchFn,
        Auth.revoke a accounts all baseUrl fetchFn =
          .ok ⟨[], none, [], []⟩)) ∧
    (∃ a : Auth, authNew { tokenStoreType := .null } ⟨true⟩ = .ok a ∧
      a.tokenStore = none ∧ a.listAccounts = [] ∧
      (∀ o2, Auth.getAccount a o2 = .ok none) ∧
      (∀ accounts all baseUrl fetchFn,
        Auth.revoke a accounts all baseUrl fetchFn =
          .ok ⟨[], none, [], []⟩)) :=
  ⟨unknown_store_type_yields_no_store { tokenStoreType := .str "bogus" }
      ⟨true⟩ rfl
      (Or.inr ⟨"bogus", rfl, by decide, by decide, by decide, by decide⟩),
    unknown_store_type_yields_no_store { tokenStoreType := .null }
      ⟨true⟩ rfl (Or.inl rfl)⟩

end AmplifySdk
